import Mathlib

/-!
Verification of the context-summarizer program (scripts/generate_summary.py).

The development is a shallow embedding of the Python source. Python
dataclasses become Lean structures; JSON values become the inductive type
Json below; methods that read the filesystem or run subprocesses take the
collected data as explicit arguments (the file contents, the glob results,
the git status lines, the existence probes); fallible code returns Except.
Machine floats are modelled as exact rationals: every numeric fact proved
here is far from any rounding boundary, so the float/rational distinction
is immaterial. The json library text layer (json.dumps / json.load) is
modelled at the JSON value level: the library round-trips values exactly,
so serialization followed by parsing is the identity on Json.
-/

/-- A JSON value, as produced by json.load. Python dicts are association
lists with unique keys; Python ints and floats both map to the num
constructor (no claim distinguishes them). -/
inductive Json where
  | null : Json
  | bool : Bool → Json
  | num : ℚ → Json
  | str : String → Json
  | arr : List Json → Json
  | obj : List (String × Json) → Json

/-- A pending-task entry, a Dict[str, str] with keys id, name, priority
in the source (class ProjectStatus, field pending_tasks). -/
structure PendingTask where
  id : String
  name : String
  priority : String

/-- Dataclass ProjectStatus (source lines 28-37). -/
structure ProjectStatus where
  name : String
  description : String
  phase : Int
  total_tasks : Int
  completed_tasks : Int
  completion_rate : ℚ
  pending_tasks : List PendingTask

/-- Dataclass TechDecision (source lines 40-45). -/
structure TechDecision where
  decision : String
  status : String
  reason : String

/-- Dataclass CodeContext (source lines 48-53). -/
structure CodeContext where
  current_files : List String
  recent_changes : List String
  architecture_patterns : List String

/-- Dataclass ConversationHistory (source lines 56-61). -/
structure ConversationHistory where
  key_discussions : List String
  confirmed_items : List String
  pending_confirmations : List String

/-- Dataclass RecoveryInstructions (source lines 64-69). -/
structure RecoveryInstructions where
  read_first : List String
  continue_from : String
  key_context : String

/-- Dataclass ContextSummary (source lines 72-82). In the source the five
payload fields hold plain dicts and lists (the result of asdict), not
dataclass instances, and recovery reinstalls whatever JSON values were
read back; accordingly they are modelled as Json values. -/
structure ContextSummary where
  version : Json
  generated_at : Json
  session_id : Json
  project : Json
  tech_decisions : Json
  code_context : Json
  conversation_history : Json
  recovery_instructions : Json

/-- Effect of asdict on a PendingTask dict, field order preserved. -/
def PendingTask.to_json (t : PendingTask) : Json :=
  Json.obj [("id", Json.str t.id), ("name", Json.str t.name),
            ("priority", Json.str t.priority)]

/-- Effect of asdict on ProjectStatus, declaration field order. -/
def ProjectStatus.to_json (p : ProjectStatus) : Json :=
  Json.obj [("name", Json.str p.name),
            ("description", Json.str p.description),
            ("phase", Json.num p.phase),
            ("total_tasks", Json.num p.total_tasks),
            ("completed_tasks", Json.num p.completed_tasks),
            ("completion_rate", Json.num p.completion_rate),
            ("pending_tasks", Json.arr (p.pending_tasks.map PendingTask.to_json))]

/-- Effect of asdict on TechDecision. -/
def TechDecision.to_json (d : TechDecision) : Json :=
  Json.obj [("decision", Json.str d.decision), ("status", Json.str d.status),
            ("reason", Json.str d.reason)]

/-- Effect of asdict on CodeContext. -/
def CodeContext.to_json (c : CodeContext) : Json :=
  Json.obj [("current_files", Json.arr (c.current_files.map Json.str)),
            ("recent_changes", Json.arr (c.recent_changes.map Json.str)),
            ("architecture_patterns", Json.arr (c.architecture_patterns.map Json.str))]

/-- Effect of asdict on ConversationHistory. -/
def ConversationHistory.to_json (h : ConversationHistory) : Json :=
  Json.obj [("key_discussions", Json.arr (h.key_discussions.map Json.str)),
            ("confirmed_items", Json.arr (h.confirmed_items.map Json.str)),
            ("pending_confirmations", Json.arr (h.pending_confirmations.map Json.str))]

/-- Effect of asdict on RecoveryInstructions. -/
def RecoveryInstructions.to_json (r : RecoveryInstructions) : Json :=
  Json.obj [("read_first", Json.arr (r.read_first.map Json.str)),
            ("continue_from", Json.str r.continue_from),
            ("key_context", Json.str r.key_context)]

/-- Method _to_json (source lines 387-389): json.dumps(asdict(summary)),
modelled at the JSON value level (field order is dataclass declaration
order, nested records already expanded by construction). -/
def ContextSummary.to_json (s : ContextSummary) : Json :=
  Json.obj [("version", s.version),
            ("generated_at", s.generated_at),
            ("session_id", s.session_id),
            ("project", s.project),
            ("tech_decisions", s.tech_decisions),
            ("code_context", s.code_context),
            ("conversation_history", s.conversation_history),
            ("recovery_instructions", s.recovery_instructions)]

/-- The keyword parameters accepted by ContextSummary(...). -/
def summaryFieldNames : List String :=
  ["version", "generated_at", "session_id", "project", "tech_decisions",
   "code_context", "conversation_history", "recovery_instructions"]

/-- Keyword lookup for double-star unpacking: a missing required argument
is a TypeError. -/
def getField (kvs : List (String × Json)) (k : String) : Except String Json :=
  match List.lookup k kvs with
  | some v => Except.ok v
  | none => Except.error ("TypeError: missing required argument " ++ k)

/-- The call ContextSummary(double-star data) on source line 194: every
field of the dataclass must be supplied and every supplied keyword must
name a field, otherwise CPython raises TypeError (the relative order of
the two checks does not matter here, both outcomes are a TypeError); a
non-dict top-level value is likewise a TypeError. -/
def decodeSummary (j : Json) : Except String ContextSummary :=
  match j with
  | Json.obj kvs => do
      let v ← getField kvs "version"
      let g ← getField kvs "generated_at"
      let si ← getField kvs "session_id"
      let pr ← getField kvs "project"
      let td ← getField kvs "tech_decisions"
      let cc ← getField kvs "code_context"
      let ch ← getField kvs "conversation_history"
      let ri ← getField kvs "recovery_instructions"
      if kvs.all (fun kv => summaryFieldNames.contains kv.1) then
        Except.ok ⟨v, g, si, pr, td, cc, ch, ri⟩
      else Except.error "TypeError: unexpected keyword argument"
  | _ => Except.error "TypeError: argument after double-star must be a mapping"

/-- Method recover (source lines 177-194). The artifact argument is the
parsed content of session_summary.json when that file exists, none when
it does not; the source returns None for a missing file and otherwise
builds ContextSummary(double-star data), letting any TypeError escape to
the caller. -/
def ContextSummarizer.recover (artifact : Option Json) :
    Except String (Option ContextSummary) :=
  match artifact with
  | none => Except.ok none
  | some j => (decodeSummary j).map some

/-- C1: decoding the structured (JSON) serialization of any SummaryRecord R
and constructing a SummaryRecord from the decoded data yields a record
equal to R field-for-field, including generated_at. -/
theorem roundtrip_recover_to_json (s : ContextSummary) :
    ContextSummarizer.recover (some s.to_json) = Except.ok (some s) := rfl

/-- A persisted object carrying every field except the required field
version, used to exhibit the corruption branch of recover. -/
def sevenFieldArtifact : List (String × Json) :=
  [("generated_at", Json.str "2026-01-01T00:00:00+00:00"),
   ("session_id", Json.str "s"),
   ("project", Json.obj []),
   ("tech_decisions", Json.arr []),
   ("code_context", Json.obj []),
   ("conversation_history", Json.obj []),
   ("recovery_instructions", Json.obj [])]

/-- C5: recover signals absence distinctly from corruption: a missing
artifact yields the not-found result (ok none), while a present artifact
lacking the required field version yields an error surfaced to the
caller; the two outcomes are distinguishable. -/
theorem recover_absence_vs_corruption :
    ContextSummarizer.recover none = Except.ok none ∧
    ∀ kvs : List (String × Json), List.lookup "version" kvs = none →
      ContextSummarizer.recover (some (Json.obj kvs)) =
        Except.error "TypeError: missing required argument version" := by
  refine ⟨rfl, fun kvs h => ?_⟩
  simp [ContextSummarizer.recover, decodeSummary, getField, h, Except.map,
    bind, Except.bind]

/-- Witness for C5 at a concrete corrupted artifact. -/
theorem recover_absence_vs_corruption_witness :
    ContextSummarizer.recover (some (Json.obj sevenFieldArtifact)) =
      Except.error "TypeError: missing required argument version" :=
  recover_absence_vs_corruption.2 sevenFieldArtifact rfl

/-- Counting scan of str.count with the needle fixed: non-overlapping
matches from the left, skipping past each match. The fuel argument is the
length of the remaining text, which strictly bounds the recursion depth,
so it is never exhausted. -/
def countAux (sub : List Char) : Nat → List Char → Nat
  | _, [] => 0
  | 0, _ => 0
  | fuel + 1, c :: rest =>
      if sub.isPrefixOf (c :: rest) then
        1 + countAux sub fuel (List.drop (sub.length - 1) rest)
      else countAux sub fuel rest

/-- Python str.count on code points (an empty needle counts length plus
one; every needle used by the source is non-empty). -/
def countSub (s sub : String) : Nat :=
  if sub.toList.isEmpty then s.toList.length + 1
  else countAux sub.toList s.toList.length s.toList

/-- The mutable project dict of _load_project_status (source lines
203-210): a key is present iff the corresponding Option is some. The
defaults carry no completion_rate key; that key is added only inside the
AGENTS.md branch (line 228). -/
structure ProjectDict where
  name : Option String
  description : Option String
  phase : Option Int
  total_tasks : Option Int
  completed_tasks : Option Int
  completion_rate : Option ℚ
  pending_tasks : Option (List PendingTask)

/-- A parsed config/project.json, modelled over the ProjectStatus field
set (a key is provided iff the Option is some). The claims exercise only
absent configs; keys outside this set, which would make the constructor
call on line 243 fail, are not touched by any claim. -/
structure ProjectConfig where
  name : Option String := none
  description : Option String := none
  phase : Option Int := none
  total_tasks : Option Int := none
  completed_tasks : Option Int := none
  completion_rate : Option ℚ := none
  pending_tasks : Option (List PendingTask) := none

/-- Last-writer-wins overwrite of one dict entry, as dict.update does. -/
def overrideField {α : Type} (new old : Option α) : Option α :=
  match new with
  | some v => some v
  | none => old

/-- Effect of project.update(config) on source line 239. -/
def ProjectDict.update (d : ProjectDict) (c : ProjectConfig) : ProjectDict :=
  { name := overrideField c.name d.name,
    description := overrideField c.description d.description,
    phase := overrideField c.phase d.phase,
    total_tasks := overrideField c.total_tasks d.total_tasks,
    completed_tasks := overrideField c.completed_tasks d.completed_tasks,
    completion_rate := overrideField c.completion_rate d.completion_rate,
    pending_tasks := overrideField c.pending_tasks d.pending_tasks }

/-- The call ProjectStatus(double-star project) on source line 243: every
dataclass field must be a key of the dict, else CPython raises TypeError. -/
def ProjectStatus.fromDict (d : ProjectDict) : Except String ProjectStatus :=
  match d.name, d.description, d.phase, d.total_tasks, d.completed_tasks,
      d.completion_rate, d.pending_tasks with
  | some n, some de, some ph, some tt, some ct, some cr, some pt =>
      Except.ok ⟨n, de, ph, tt, ct, cr, pt⟩
  | _, _, _, _, _, _, _ =>
      Except.error "TypeError: ProjectStatus missing required argument"

/-- Method _load_project_status (source lines 198-243). agentsContent is
the text of AGENTS.md when that file exists (the read succeeds in this
model; the except branch on lines 230-231 is not exercised by any claim),
config the parsed config/project.json when present and parseable. The
AGENTS.md branch counts completed markers and task mentions, stores the
completed count and a completion rate, and notably never stores the
counted total (total_tasks keeps its default); the phase regex result on
line 225 is computed and discarded by the source. -/
def load_project_status (agentsContent : Option String)
    (config : Option ProjectConfig) : Except String ProjectStatus :=
  let d0 : ProjectDict :=
    { name := some "Project", description := some "A coding project",
      phase := some 1, total_tasks := some 50, completed_tasks := some 0,
      completion_rate := none, pending_tasks := some [] }
  let d1 : ProjectDict :=
    match agentsContent with
    | none => d0
    | some content =>
        let completed : Nat := countSub content "[x]" + countSub content "✅"
        let total : Nat := countSub content "任务" + countSub content "Task"
        { d0 with
          completed_tasks := some (completed : Int),
          completion_rate := some
            (if 0 < total then (completed : ℚ) / ((max total 1 : Nat) : ℚ) else 0) }
  let d2 : ProjectDict :=
    match config with
    | none => d1
    | some c => d1.update c
  ProjectStatus.fromDict d2

/-- The synthetic default decision list (source lines 251-257). -/
def default_decisions : List TechDecision :=
  [{ decision := "Standard architecture", status := "confirmed",
     reason := "Default decision for new projects" }]

/-- Method _load_tech_decisions (source lines 245-288). The regex findall
over the document text (bullet entries of the form label colon detail) is
abstracted as the input match list: none models a missing or unreadable
docs/tech_decisions.md, some ms the matched (label, detail) pairs in
document order. The source caps the matches at 10, marks each extracted
decision confirmed, and falls back to the default list when nothing
matches. -/
def load_tech_decisions (patterns : Option (List (String × String))) :
    List TechDecision :=
  match patterns with
  | none => default_decisions
  | some ms =>
      let ds := (ms.take 10).map fun m =>
        ({ decision := m.1.trim, status := "confirmed", reason := m.2.trim } : TechDecision)
      if ds.isEmpty then default_decisions else ds

/-- Method _list_current_files (source lines 307-325). srcMatches is the
concatenated glob iteration over src patterns restricted to files (a path
can appear under both patterns), configMatches the config glob matches.
The source appends src matches only while fewer than 10 entries have been
collected, appends every config match unconditionally, then truncates the
combined list to 15. -/
def list_current_files (srcMatches configMatches : List String) : List String :=
  let files := srcMatches.foldl (fun fs p => if fs.length < 10 then fs ++ [p] else fs) []
  (files ++ configMatches).take 15

/-- Method _get_recent_changes (source lines 327-348). gitStatusLines is
the stdout of the git status call split into lines when the command
succeeds, none on any failure (the except branch yields the empty list). -/
def get_recent_changes (gitStatusLines : Option (List String)) : List String :=
  match gitStatusLines with
  | none => []
  | some ls => ((((ls.take 5).map String.trim).filter (fun l => l != "")).take 5)

/-- The marker-file table of _detect_architecture (source lines 362-368),
in insertion order. -/
def architectureFileTable : List (String × String) :=
  [("requirements.txt", "Python project"), ("package.json", "Node.js project"),
   ("pyproject.toml", "Python (Poetry)"), ("docker-compose.yml", "Docker"),
   ("AGENTS.md", "OpenCode workflow")]

/-- Method _detect_architecture (source lines 350-374). dirProbe and
fileProbe report existence of the named directory or file under the
project root. -/
def detect_architecture (dirProbe fileProbe : String → Bool) : List String :=
  ((["src", "tests", "config", "docs", "scripts"].filter dirProbe) ++
    (architectureFileTable.filterMap fun e =>
      if fileProbe e.1 then some e.2 else none)).take 5

/-- The data handed to one generate invocation by the external collectors
(file contents, glob results, git output, existence probes); see the doc
comments of the individual loaders for the correspondence. -/
structure CollectorInputs where
  agentsContent : Option String
  config : Option ProjectConfig
  decisionPatterns : Option (List (String × String))
  srcMatches : List String
  configMatches : List String
  gitStatusLines : Option (List String)
  dirProbe : String → Bool
  fileProbe : String → Bool

/-- Method _load_code_context (source lines 290-296). -/
def load_code_context (ins : CollectorInputs) : CodeContext :=
  { current_files := list_current_files ins.srcMatches ins.configMatches,
    recent_changes := get_recent_changes ins.gitStatusLines,
    architecture_patterns := detect_architecture ins.dirProbe ins.fileProbe }

/-- Method _load_conversation_history (source lines 298-305): always the
empty history. -/
def load_conversation_history : ConversationHistory :=
  { key_discussions := [], confirmed_items := [], pending_confirmations := [] }

/-- Rounding used by the format spec percent with zero decimals: nearest
integer, ties to even. The source formats a machine float; every value
rounded in this development is far from a tie, so the exact-rational model
agrees with the float behavior. -/
def roundHalfEven (q : ℚ) : ℤ :=
  let f := ⌊q⌋
  if q - (f : ℚ) < 1/2 then f
  else if (1 : ℚ)/2 < q - (f : ℚ) then f + 1
  else if f % 2 = 0 then f else f + 1

/-- Format spec percent with zero decimals applied to a number: multiply
by 100, round to a whole number, append a percent sign. -/
def formatPercent (q : ℚ) : String := toString (roundHalfEven (q * 100)) ++ "%"

/-- Method _get_continue_from (source lines 376-381). -/
def get_continue_from (p : ProjectStatus) : String :=
  match p.pending_tasks with
  | [] => "Phase " ++ toString p.phase ++ " completion"
  | t :: _ => "Task " ++ t.id ++ ": " ++ t.name

/-- Method _get_key_context (source lines 383-385). -/
def get_key_context (p : ProjectStatus) : String :=
  p.name ++ " - Phase " ++ toString p.phase ++ ", " ++
    formatPercent p.completion_rate ++ " complete"

/-- Class ContextSummarizer (source lines 87-92): the constructor stores
the project root and reads the ambient UTC clock exactly once into
self.timestamp; the clock value is a constructor argument here so that
the single capture is visible. No other modelled method reads the clock. -/
structure ContextSummarizer where
  project_root : String
  timestamp : String

/-- Method generate, record-assembly part (source lines 113-136): load
the collector data, build the recovery instructions and the
ContextSummary. The output_format, include_sections and max_words
parameters only select which renderings (_to_json, _to_text) of the
returned record are produced, so the assembled record is the object
modelled; the only fallible step is _load_project_status. -/
def ContextSummarizer.generate (self : ContextSummarizer) (session_id : String)
    (ins : CollectorInputs) : Except String ContextSummary :=
  match load_project_status ins.agentsContent ins.config with
  | Except.error e => Except.error e
  | Except.ok project =>
      let decisions := load_tech_decisions ins.decisionPatterns
      let code := load_code_context ins
      let history := load_conversation_history
      let recovery : RecoveryInstructions :=
        { read_first := ["README.md", "AGENTS.md"],
          continue_from := get_continue_from project,
          key_context := get_key_context project }
      Except.ok
        { version := Json.str "1.0",
          generated_at := Json.str self.timestamp,
          session_id := Json.str session_id,
          project := project.to_json,
          tech_decisions := Json.arr (decisions.map TechDecision.to_json),
          code_context := code.to_json,
          conversation_history := history.to_json,
          recovery_instructions := recovery.to_json }

/-- All collectors empty or missing: no AGENTS.md, no config, no
decisions document, no git data, no files, all probes negative. -/
def emptyInputs : CollectorInputs :=
  { agentsContent := none, config := none, decisionPatterns := none,
    srcMatches := [], configMatches := [], gitStatusLines := none,
    dirProbe := fun _ => false, fileProbe := fun _ => false }

/-- C2: with every collector input missing or empty, assembly does not
return the documented default record: the defaults dict (source lines
203-210) has no completion_rate key since that key is added only inside
the AGENTS.md branch (line 228), so the constructor call on line 243
raises TypeError and generate fails. The tech-decision half of the claim
does hold: the default decision list is returned. -/
theorem assemble_all_missing_raises :
    (∀ (self : ContextSummarizer) (sid : String),
      self.generate sid emptyInputs =
        Except.error "TypeError: ProjectStatus missing required argument") ∧
    load_project_status none none =
      Except.error "TypeError: ProjectStatus missing required argument" ∧
    load_tech_decisions none = default_decisions :=
  ⟨fun _ _ => rfl, rfl, rfl⟩

/-- The generation timestamp displayed by a structured rendering: the
value stored at key generated_at. -/
def shownTimestamp (j : Json) : Option Json :=
  match j with
  | Json.obj kvs => List.lookup "generated_at" kvs
  | _ => none

/-- The read-first list carried by a rendered recovery-instructions dict. -/
def shownReadFirst (j : Json) : Option Json :=
  match j with
  | Json.obj kvs => List.lookup "read_first" kvs
  | _ => none

/-- C9: generated_at is captured once at construction: every record
assembled by the same summarizer instance carries generated_at equal to
the instance timestamp, and the structured rendering of such a record
displays exactly that value, so two renders of the same record (and of
any two records of the same instance) show identical generation
timestamps. -/
theorem generated_at_fixed_per_instance
    (self : ContextSummarizer) (sid1 sid2 : String)
    (ins1 ins2 : CollectorInputs) (s1 s2 : ContextSummary)
    (h1 : self.generate sid1 ins1 = Except.ok s1)
    (h2 : self.generate sid2 ins2 = Except.ok s2) :
    s1.generated_at = Json.str self.timestamp ∧
    s2.generated_at = Json.str self.timestamp ∧
    shownTimestamp s1.to_json = some (Json.str self.timestamp) ∧
    shownTimestamp s2.to_json = shownTimestamp s1.to_json := by
  unfold ContextSummarizer.generate at h1 h2
  cases hp1 : load_project_status ins1.agentsContent ins1.config with
  | error e => rw [hp1] at h1; exact Except.noConfusion h1
  | ok p1 =>
    rw [hp1] at h1
    cases hp2 : load_project_status ins2.agentsContent ins2.config with
    | error e => rw [hp2] at h2; exact Except.noConfusion h2
    | ok p2 =>
      rw [hp2] at h2
      injection h1 with e1
      injection h2 with e2
      subst e1; subst e2
      exact ⟨rfl, rfl, rfl, rfl⟩

/-- A summarizer instance with a fixed clock reading, for the witnesses. -/
def self0 : ContextSummarizer :=
  { project_root := "/p", timestamp := "2026-02-03T04:05:06+00:00" }

/-- Collector inputs with an empty (but existing) AGENTS.md and every
other collector empty: the one all-defaults configuration on which
assembly succeeds (compare C2, where AGENTS.md is absent). -/
def insW : CollectorInputs :=
  { agentsContent := some "", config := none, decisionPatterns := none,
    srcMatches := [], configMatches := [], gitStatusLines := none,
    dirProbe := fun _ => false, fileProbe := fun _ => false }

/-- The project status assembled from an empty AGENTS.md: zero counted
markers, zero counted tasks, rate zero. -/
def psEmpty : ProjectStatus :=
  { name := "Project", description := "A coding project", phase := 1,
    total_tasks := 50, completed_tasks := 0, completion_rate := 0,
    pending_tasks := [] }

/-- The record self0 assembles for session s1 from insW. -/
def sampleSummary : ContextSummary :=
  { version := Json.str "1.0",
    generated_at := Json.str "2026-02-03T04:05:06+00:00",
    session_id := Json.str "s1",
    project := psEmpty.to_json,
    tech_decisions := Json.arr (default_decisions.map TechDecision.to_json),
    code_context := CodeContext.to_json
      { current_files := [], recent_changes := [], architecture_patterns := [] },
    conversation_history := ConversationHistory.to_json
      { key_discussions := [], confirmed_items := [], pending_confirmations := [] },
    recovery_instructions := RecoveryInstructions.to_json
      { read_first := ["README.md", "AGENTS.md"],
        continue_from := "Phase 1 completion",
        key_context := "Project - Phase 1, 0% complete" } }

/-- The record self0 assembles for session s2 from insW. -/
def sampleSummary2 : ContextSummary :=
  { sampleSummary with session_id := Json.str "s2" }

/-- Witness for C9: two generate invocations of the same instance, with
the conclusion evaluated at the resulting concrete records. -/
theorem generated_at_fixed_per_instance_witness :
    sampleSummary.generated_at = Json.str "2026-02-03T04:05:06+00:00" ∧
    sampleSummary2.generated_at = Json.str "2026-02-03T04:05:06+00:00" ∧
    shownTimestamp sampleSummary.to_json =
      some (Json.str "2026-02-03T04:05:06+00:00") ∧
    shownTimestamp sampleSummary2.to_json =
      shownTimestamp sampleSummary.to_json :=
  generated_at_fixed_per_instance self0 "s1" "s2" insW insW
    sampleSummary sampleSummary2 (by with_unfolding_all rfl)
    (by with_unfolding_all rfl)

/-- C10: every successfully assembled record has
recovery_instructions.read_first exactly the two-element sequence
README.md, AGENTS.md in that order, regardless of collector inputs
(source lines 119-124 fix the list literally). -/
theorem read_first_always_readme_then_agents
    (self : ContextSummarizer) (sid : String) (ins : CollectorInputs)
    (s : ContextSummary) (h : self.generate sid ins = Except.ok s) :
    shownReadFirst s.recovery_instructions =
      some (Json.arr [Json.str "README.md", Json.str "AGENTS.md"]) := by
  unfold ContextSummarizer.generate at h
  cases hp : load_project_status ins.agentsContent ins.config with
  | error e => rw [hp] at h; exact Except.noConfusion h
  | ok p => rw [hp] at h; injection h with e1; subst e1; rfl

/-- Witness for C10 at a concrete successful invocation. -/
theorem read_first_always_readme_then_agents_witness :
    shownReadFirst sampleSummary.recovery_instructions =
      some (Json.arr [Json.str "README.md", Json.str "AGENTS.md"]) :=
  read_first_always_readme_then_agents self0 "s1" insW sampleSummary
    (by with_unfolding_all rfl)

/-- Python str() conversion as used inside the f-strings of _to_text.
Only string and whole-number values reach any claim (an int prints
identically under the rational printer); every narrative line built
before the line-414 failure is discarded anyway, see to_text. -/
def pyStr (j : Json) : String :=
  match j with
  | Json.null => "None"
  | Json.bool b => if b then "True" else "False"
  | Json.num q => toString q
  | Json.str s => s
  | Json.arr _ => "[...]"
  | Json.obj _ => "\x7b...\x7d"

/-- Dict subscript access: a missing key is a KeyError, subscripting a
non-dict is a TypeError. -/
def jget (j : Json) (k : String) : Except String Json :=
  match j with
  | Json.obj kvs =>
      match List.lookup k kvs with
      | some v => Except.ok v
      | none => Except.error ("KeyError: " ++ k)
  | _ => Except.error "TypeError: value is not subscriptable"

/-- Python truthiness of a JSON value. -/
def truthy (j : Json) : Bool :=
  match j with
  | Json.null => false
  | Json.bool b => b
  | Json.num q => decide (q ≠ 0)
  | Json.str s => s != ""
  | Json.arr l => !l.isEmpty
  | Json.obj l => !l.isEmpty

/-- Format spec percent with zero decimals applied to a dict value, as in
the f-string on source line 406; formatting a non-number would raise. -/
def percent0 (j : Json) : Except String String :=
  match j with
  | Json.num q => Except.ok (formatPercent q)
  | _ => Except.error "TypeError: unsupported format string"

/-- The completion line of _to_text (source line 406). Note the f-string
places a literal percent sign directly after the percent-producing format
field, yielding a doubled percent sign. -/
def completion_line (completed total rate : Json) : Except String String :=
  (percent0 rate).map fun pct =>
    "- Completion: " ++ pyStr completed ++ "/" ++ pyStr total ++
      " tasks (" ++ pct ++ "%)"

/-- The pending preview of _to_text (source lines 408-409): when the
pending-task list of the project dict is non-empty, one line joining the
names of its first three entries. -/
def pending_preview (pend : Json) : Except String (List String) :=
  if truthy pend then
    match pend with
    | Json.arr ts => do
        let names ← (ts.take 3).mapM fun t => jget t "name"
        Except.ok ["- Pending: " ++ String.intercalate ", " (names.map pyStr)]
    | _ => Except.error "TypeError: value is not sliceable"
  else Except.ok []

/-- Method _to_text (source lines 391-500). Lines 393-411 build the
header and the Project Status section; those lines are assembled here (in
_header and _statusLines) so that the dict accesses and their failure
modes are preserved. Line 414 then evaluates summary.pending_tasks, but
the ContextSummary dataclass (source lines 72-82) declares no field of
that name — the task list lives at summary.project under key
pending_tasks — so the attribute access raises AttributeError on every
call, the accumulated lines are discarded by the exception, and lines
415-500 (Pending Tasks buckets, Technical Decisions, Code Context,
Conversation History, Recovery Instructions, footer) are unreachable.
The max_words parameter is never consulted before the failure (the full
source only ever adds to an unused word counter). -/
def to_text (summary : ContextSummary) (_max_words : Nat) : Except String String := do
  let _header : List String :=
    ["# Context Summary",
     "\nGenerated: " ++ pyStr summary.generated_at,
     "Session: " ++ pyStr summary.session_id]
  let project := summary.project
  let nm ← jget project "name"
  let ds ← jget project "description"
  let ph ← jget project "phase"
  let ct ← jget project "completed_tasks"
  let tt ← jget project "total_tasks"
  let cr ← jget project "completion_rate"
  let cline ← completion_line ct tt cr
  let pend ← jget project "pending_tasks"
  let pendLines ← pending_preview pend
  let _statusLines : List String :=
    ["\n## Project Status",
     "**" ++ pyStr nm ++ "** - " ++ pyStr ds,
     "- Current Phase: Phase " ++ pyStr ph,
     cline] ++ pendLines
  Except.error "AttributeError: ContextSummary object has no attribute pending_tasks"

/-- The four pending tasks named by claim C3. -/
def tasksC3 : List PendingTask :=
  [{ id := "1", name := "Fix auth", priority := "high" },
   { id := "2", name := "Write docs", priority := "medium" },
   { id := "3", name := "Refactor", priority := "high" },
   { id := "4", name := "Cleanup", priority := "low" }]

/-- A record whose project carries the four claimed pending tasks. -/
def recC3 : ContextSummary :=
  { sampleSummary with
    project := ProjectStatus.to_json { psEmpty with pending_tasks := tasksC3 } }

/-- C3: the narrative rendering never emits a Pending Tasks section: on
every call _to_text evaluates summary.pending_tasks (line 414) and the
ContextSummary dataclass has no such attribute, so rendering the claimed
four-task record raises AttributeError instead of showing High equal to
tasks 1 and 3 and Medium equal to task 2. -/
theorem pending_tasks_section_never_rendered :
    ∀ w : Nat, to_text recC3 w =
      Except.error "AttributeError: ContextSummary object has no attribute pending_tasks" :=
  fun _ => rfl

/-- Two technical decisions, one confirmed and one rejected, as in the
claim C6 scenario. -/
def decisionsC6 : List TechDecision :=
  [{ decision := "Use Postgres", status := "confirmed", reason := "Relational data" },
   { decision := "Use MongoDB", status := "rejected", reason := "Poor fit" }]

/-- A record with a non-empty decision list. -/
def recC6 : ContextSummary :=
  { sampleSummary with
    tech_decisions := Json.arr (decisionsC6.map TechDecision.to_json) }

/-- C6: the narrative rendering never emits a Technical Decisions
section: _to_text raises AttributeError at line 414, before the decision
loop of lines 433-443 can run (that loop, as written, would moreover slice
the first 5 entries before filtering by confirmed status, not cap the
confirmed entries at 5). -/
theorem decisions_section_never_rendered :
    ∀ w : Nat, to_text recC6 w =
      Except.error "AttributeError: ContextSummary object has no attribute pending_tasks" :=
  fun _ => rfl

/-- An AGENTS.md text containing exactly 30 completed markers and 45 task
mentions, so that the counting on source lines 219-221 yields completed
30 and total 45. -/
def agents3045 : String := "[x] [x] [x] [x] [x] [x] [x] [x] [x] [x] [x] [x] [x] [x] [x] [x] [x] [x] [x] [x] [x] [x] [x] [x] [x] [x] [x] [x] [x] [x] Task Task Task Task Task Task Task Task Task Task Task Task Task Task Task Task Task Task Task Task Task Task Task Task Task Task Task Task Task Task Task Task Task Task Task Task Task Task Task Task Task Task Task Task Task "

/-- The project status assembled from agents3045: the completed count and
the rate are stored, while total_tasks keeps its default of 50. -/
def ps3045 : ProjectStatus :=
  { name := "Project", description := "A coding project", phase := 1,
    total_tasks := 50, completed_tasks := 30, completion_rate := 30/45,
    pending_tasks := [] }

/-- A record whose project dict carries completion rate 30/45. -/
def recC4 : ContextSummary :=
  { sampleSummary with project := ps3045.to_json }

set_option maxRecDepth 8000 in
/-- C4: counting 30 completed of 45 tasks stores completion_rate 2/3,
within 1e-4 of 0.6667 — that half of the claim holds. The narrative half
fails: the completion line of source line 406 renders the rate with a
doubled percent sign (67 percent percent), because the f-string puts a
literal percent sign right after the percent-producing format field, and
in any case _to_text raises AttributeError at line 414 before returning,
so no narrative showing 67 percent is ever produced. -/
theorem completion_rate_stored_but_misrendered :
    load_project_status (some agents3045) none = Except.ok ps3045 ∧
    |ps3045.completion_rate - 0.6667| ≤ 1/10000 ∧
    completion_line (Json.num 30) (Json.num 50) (Json.num (30/45)) =
      Except.ok "- Completion: 30/50 tasks (67%%)" ∧
    ∀ w : Nat, to_text recC4 w =
      Except.error "AttributeError: ContextSummary object has no attribute pending_tasks" := by
  refine ⟨by with_unfolding_all rfl, ?_, by with_unfolding_all rfl, fun _ => rfl⟩
  show |(30:ℚ)/45 - 0.6667| ≤ 1/10000
  rw [abs_le]
  constructor <;> norm_num

/-- Method _estimate_token_usage (source lines 517-536): rssBytes is the
process resident set size in bytes when psutil succeeds; any exception
yields 0.0. -/
def estimate_token_usage (rssBytes : Option ℚ) : ℚ :=
  match rssBytes with
  | none => 0
  | some rss => min (rss / 1024 / 1024 * 100 / 200000) 1

/-- Method auto_detect (source lines 502-515): usage is the outcome of
the estimation step; an exception there yields (False, 0.0), otherwise
the pair (usage greater than 0.8, usage) is returned. -/
def ContextSummarizer.auto_detect (usage : Except Unit ℚ) : Bool × ℚ :=
  match usage with
  | Except.ok u => (decide ((0.8 : ℚ) < u), u)
  | Except.error _ => (false, 0)

/-- C7: the readiness check returns true iff the usage signal strictly
exceeds 0.8 (0.81 yields true, 0.80 yields false), and any failure to
obtain the signal yields signal 0.0 and result false rather than an
error — at both layers: the estimator maps its own failure to 0, and
auto_detect maps a failing estimation to (false, 0). -/
theorem should_summarize_strict_threshold :
    (∀ u : ℚ, (ContextSummarizer.auto_detect (Except.ok u)).1 = true ↔ 0.8 < u) ∧
    (ContextSummarizer.auto_detect (Except.ok 0.81)).1 = true ∧
    (ContextSummarizer.auto_detect (Except.ok 0.80)).1 = false ∧
    (∀ e : Unit, ContextSummarizer.auto_detect (Except.error e) = (false, 0)) ∧
    estimate_token_usage none = 0 := by
  refine ⟨fun u => ?_, ?_, ?_, fun e => rfl, rfl⟩
  · simp [ContextSummarizer.auto_detect]
  · simp [ContextSummarizer.auto_detect]
    norm_num
  · simp [ContextSummarizer.auto_detect]
    norm_num

/-- The source-glob collection loop of _list_current_files appends
exactly the first 10 candidates: the append is guarded by a length
check. -/
theorem foldl_cap10 (l acc : List String) :
    l.foldl (fun fs p => if fs.length < 10 then fs ++ [p] else fs) acc =
      acc ++ l.take (10 - acc.length) := by
  induction l generalizing acc with
  | nil => simp
  | cons p t ih =>
    simp only [List.foldl]
    by_cases h : acc.length < 10
    · rw [if_pos h, ih]
      have h9 : 10 - acc.length = (9 - acc.length) + 1 := by omega
      have h9b : 10 - (acc ++ [p]).length = 9 - acc.length := by
        simp only [List.length_append, List.length_singleton]
        omega
      rw [h9b, h9, List.take_succ_cons]
      simp
    · rw [if_neg h, ih]
      have h0 : 10 - acc.length = 0 := by omega
      rw [h0]
      simp

/-- Twenty candidate src files, in order. -/
def files20 : List String :=
  ["f01","f02","f03","f04","f05","f06","f07","f08","f09","f10",
   "f11","f12","f13","f14","f15","f16","f17","f18","f19","f20"]

/-- C8 counterexample: twenty src candidates are not truncated to the
first 15 — the collection loop already caps the src matches at 10, so the
assembled list is the first 10, not the first 15. -/
theorem current_files_20_not_first15 :
    list_current_files files20 [] ≠ files20.take 15 := by decide

/-- C8 amended: the assembled current_files list always has length at
most 15 and equals the first 10 src candidates (in order) followed by the
config candidates (in order), the combination truncated to 15; so a list
of 20 src candidates is silently cut to its first 10, order preserved. -/
theorem current_files_src10_then_cap15 (src cfg : List String) :
    list_current_files src cfg = (src.take 10 ++ cfg).take 15 ∧
    (list_current_files src cfg).length ≤ 15 := by
  have h : list_current_files src cfg = (src.take 10 ++ cfg).take 15 := by
    unfold list_current_files
    rw [foldl_cap10]
    simp
  refine ⟨h, ?_⟩
  rw [h]
  simp [List.length_take]
